import Mathlib

/-
Verification development for src/src/misc/events.c (the VLC event manager).

The C file implements a publish/subscribe dispatcher: an owner registers
event-type categories, listeners attach/detach a (callback, user data)
pair against a category, and vlc_event_send fans an event out to the
listeners of its category.

Embedding notes:
- Pointers (the owner object, the parent object, callback function
  pointers and user-data pointers) are opaque to the manager except for
  equality comparison, so they are modelled as Nat identifiers.
- The dynamic-array collaborator (vlc_arrays.h, outside src/) is modelled
  as an ordered Lean list: ARRAY_INIT is the empty list, ARRAY_APPEND
  appends at the end, ARRAY_REMOVE at fe_idx removes the element at that
  index, and FOREACH_ARRAY iterates by an integer index fe_idx that is
  re-checked against the live array size on every step (the source itself
  exposes the loop index: vlc_event_detach passes fe_idx to ARRAY_REMOVE).
- malloc is modelled as always succeeding; the VLC_ENOMEM early returns
  are therefore not taken in the model. free is a no-op on the state.
- The mutex serialises bookkeeping; since vlc_event_send drops it around
  each callback, a callback may mutate the manager. This is modelled by
  giving the dispatch loop a callback interpretation of type
  Nat -> vlc_event_t -> Nat -> vlc_event_manager_t -> vlc_event_manager_t
  mapping (function pointer, event, user data, state) to the new state.
- msg_Err / msg_Warn diagnostics are modelled as a count of messages
  emitted by the call.
- Because a callback may keep growing the listener array, the C dispatch
  loop need not terminate; the model gives the loop a fuel parameter and
  reports in the ok flag whether the loop ran to completion.
-/

/-- VLC_SUCCESS return code, from the VLC headers. -/
def VLC_SUCCESS : Int := 0

/-- VLC_EGENERIC return code, from the VLC headers. -/
def VLC_EGENERIC : Int := -666

/-- vlc_event_listener_t: a (user data, callback) pair, events.c lines 48-55. -/
structure vlc_event_listener_t where
  p_user_data : Nat
  pf_callback : Nat
deriving DecidableEq, Repr

/-- vlc_event_listeners_group_t: an event type key plus the ordered array of
listeners attached to it, events.c lines 57-61. -/
structure vlc_event_listeners_group_t where
  event_type : Nat
  listeners : List vlc_event_listener_t
deriving DecidableEq, Repr

/-- vlc_event_manager_t: owner object, parent object, ordered array of
listener groups (the lock is a run-time artefact with no state content). -/
structure vlc_event_manager_t where
  p_obj : Nat
  p_parent_object : Nat
  listeners_groups : List vlc_event_listeners_group_t
deriving DecidableEq, Repr

/-- vlc_event_t: event type key, source object (stamped by send), and the
caller-owned payload union, opaque to the manager. -/
structure vlc_event_t where
  type : Nat
  p_obj : Nat
  payload : Nat
deriving DecidableEq, Repr

/-- vlc_event_manager_init, events.c lines 86-94: stores the owner and the
parent object and starts with an empty groups array. Always VLC_SUCCESS. -/
def vlc_event_manager_init (p_obj p_parent_obj : Nat) :
    vlc_event_manager_t × Int :=
  ({ p_obj := p_obj, p_parent_object := p_parent_obj, listeners_groups := [] },
   VLC_SUCCESS)

/-- vlc_event_manager_register_event_type, events.c lines 115-133: allocates
a fresh group with an empty listener array and appends it to the groups
array. No duplicate check. malloc is modelled as succeeding, so the
VLC_ENOMEM branch is not taken and the call returns VLC_SUCCESS. -/
def vlc_event_manager_register_event_type (p_em : vlc_event_manager_t)
    (event_type : Nat) : vlc_event_manager_t × Int :=
  ({ p_em with listeners_groups :=
      p_em.listeners_groups ++ [{ event_type := event_type, listeners := [] }] },
   VLC_SUCCESS)

/-- The FOREACH_ARRAY scan of __vlc_event_attach, events.c lines 200-215:
walk the groups in order; at the first group whose key equals event_type,
append the listener to its array and return (some) the updated groups;
if the scan falls off the end, return none. -/
def attachScan (listener : vlc_event_listener_t) (event_type : Nat) :
    List vlc_event_listeners_group_t → Option (List vlc_event_listeners_group_t)
  | [] => none
  | g :: gs =>
    if g.event_type = event_type then
      some ({ g with listeners := g.listeners ++ [listener] } :: gs)
    else
      match attachScan listener event_type gs with
      | some gs2 => some (g :: gs2)
      | none => none

/-- Result of __vlc_event_attach: the new manager state, the return code,
and the number of msg_Err diagnostics emitted. -/
structure AttachResult where
  em : vlc_event_manager_t
  ret : Int
  errors_reported : Nat
deriving DecidableEq, Repr

/-- __vlc_event_attach, events.c lines 180-221: allocate a listener holding
(callback, user data), append it to the first group matching event_type and
return VLC_SUCCESS; if no group matches, free the listener, report one
msg_Err and return VLC_EGENERIC. -/
def __vlc_event_attach (p_em : vlc_event_manager_t) (event_type : Nat)
    (pf_callback p_user_data : Nat) : AttachResult :=
  let listener : vlc_event_listener_t :=
    { p_user_data := p_user_data, pf_callback := pf_callback }
  match attachScan listener event_type p_em.listeners_groups with
  | some gs => { em := { p_em with listeners_groups := gs },
                 ret := VLC_SUCCESS, errors_reported := 0 }
  | none => { em := p_em, ret := VLC_EGENERIC, errors_reported := 1 }

/-- The inner FOREACH_ARRAY scan of vlc_event_detach over one listener
array, events.c lines 240-258: find the first listener whose
(callback, user data) pair equals the arguments, remove it (ARRAY_REMOVE
at fe_idx) and return the shrunk array; none if no listener matches. -/
def detachListeners (pf_callback p_user_data : Nat) :
    List vlc_event_listener_t → Option (List vlc_event_listener_t)
  | [] => none
  | l :: ls =>
    if l.pf_callback = pf_callback ∧ l.p_user_data = p_user_data then
      some ls
    else
      match detachListeners pf_callback p_user_data ls with
      | some ls2 => some (l :: ls2)
      | none => none

/-- The outer FOREACH_ARRAY scan of vlc_event_detach over the groups,
events.c lines 235-259. Note the source has no break after scanning a
matching group whose listener array holds no match: the outer loop then
continues to later groups with the same key. -/
def detachGroups (event_type pf_callback p_user_data : Nat) :
    List vlc_event_listeners_group_t → Option (List vlc_event_listeners_group_t)
  | [] => none
  | g :: gs =>
    if g.event_type = event_type then
      match detachListeners pf_callback p_user_data g.listeners with
      | some ls => some ({ g with listeners := ls } :: gs)
      | none =>
        match detachGroups event_type pf_callback p_user_data gs with
        | some gs2 => some (g :: gs2)
        | none => none
    else
      match detachGroups event_type pf_callback p_user_data gs with
      | some gs2 => some (g :: gs2)
      | none => none

/-- Result of vlc_event_detach: the new manager state, the return code,
and the number of msg_Warn diagnostics emitted. -/
structure DetachResult where
  em : vlc_event_manager_t
  ret : Int
  warnings_reported : Nat
deriving DecidableEq, Repr

/-- vlc_event_detach, events.c lines 226-267: remove and free the first
matching listener found by the double scan and return VLC_SUCCESS with no
diagnostic; otherwise leave the state unchanged, report one msg_Warn and
return VLC_EGENERIC. -/
def vlc_event_detach (p_em : vlc_event_manager_t)
    (event_type pf_callback p_user_data : Nat) : DetachResult :=
  match detachGroups event_type pf_callback p_user_data p_em.listeners_groups with
  | some gs => { em := { p_em with listeners_groups := gs },
                 ret := VLC_SUCCESS, warnings_reported := 0 }
  | none => { em := p_em, ret := VLC_EGENERIC, warnings_reported := 1 }

/-- A callback interpretation: what the C function pointed to by
pf_callback does to the manager when invoked as func(p_event, user_data)
while the lock is dropped. Arguments: function pointer, event, user data,
manager state before the call; result: manager state after the call. -/
abbrev Interp :=
  Nat → vlc_event_t → Nat → vlc_event_manager_t → vlc_event_manager_t

/-- One recorded callback invocation made by the dispatch loop. -/
structure Invocation where
  pf_callback : Nat
  p_user_data : Nat
  ev : vlc_event_t
deriving DecidableEq, Repr

/-- The listener array of the group at index gi of the groups array
(the group object the dispatch loop holds a pointer to). -/
def groupListenersAt (p_em : vlc_event_manager_t) (gi : Nat) :
    List vlc_event_listener_t :=
  match p_em.listeners_groups[gi]? with
  | some g => g.listeners
  | none => []

/-- The first index of the groups array whose key equals event_type: the
group at which the FOREACH_ARRAY scans of send and attach stop. -/
def findGroupIdx (event_type : Nat) :
    List vlc_event_listeners_group_t → Option Nat
  | [] => none
  | g :: gs =>
    if g.event_type = event_type then some 0
    else (findGroupIdx event_type gs).map Nat.succ

/-- The inner FOREACH_ARRAY loop of vlc_event_send, events.c lines 154-171,
on the group at index gi: while fe_idx is below the live size of the
listener array of that group, read the listener at fe_idx, unlock, invoke
its callback (which may mutate the manager), relock, and advance fe_idx.
The size bound is re-read against the live array on every step. fuel
bounds the number of iterations; the Bool reports whether the loop ran to
completion within the fuel. -/
def sendLoop (interp : Interp) (gi : Nat) (ev : vlc_event_t) :
    Nat → Nat → vlc_event_manager_t →
    vlc_event_manager_t × List Invocation × Bool
  | 0, fe_idx, em =>
    if fe_idx < (groupListenersAt em gi).length then (em, [], false)
    else (em, [], true)
  | Nat.succ fuel, fe_idx, em =>
    let ls := groupListenersAt em gi
    if h : fe_idx < ls.length then
      let listener := ls.get ⟨fe_idx, h⟩
      let em2 := interp listener.pf_callback ev listener.p_user_data em
      let r := sendLoop interp gi ev fuel (fe_idx + 1) em2
      (r.1, { pf_callback := listener.pf_callback,
              p_user_data := listener.p_user_data, ev := ev } :: r.2.1, r.2.2)
    else (em, [], true)

/-- Result of vlc_event_send: the manager state after dispatch, the event
as mutated in place by send (p_obj stamped with the owner), the ordered
invocation log, the number of diagnostics emitted by send itself, and
whether the dispatch loop completed within the fuel. -/
structure SendResult where
  em : vlc_event_manager_t
  p_event : vlc_event_t
  invocations : List Invocation
  msgs : Nat
  ok : Bool
deriving DecidableEq, Repr

/-- vlc_event_send, events.c lines 138-175: first overwrite the p_obj field
of the caller event with the owner object, then scan the groups for the
first one whose key equals the event type; if none matches, return having
invoked nothing (the source emits no diagnostic anywhere in send, hence
msgs is 0); otherwise run the dispatch loop on that group and break. -/
def vlc_event_send (interp : Interp) (fuel : Nat)
    (p_em : vlc_event_manager_t) (p_event : vlc_event_t) : SendResult :=
  let ev := { p_event with p_obj := p_em.p_obj }
  match findGroupIdx ev.type p_em.listeners_groups with
  | none => { em := p_em, p_event := ev, invocations := [],
              msgs := 0, ok := true }
  | some gi =>
    let r := sendLoop interp gi ev fuel 0 p_em
    { em := r.1, p_event := ev, invocations := r.2.1,
      msgs := 0, ok := r.2.2 }

/-- A listener entry matches a (callback, user data) query pair. -/
def listenerMatches (l : vlc_event_listener_t) (pf_callback p_user_data : Nat) :
    Prop :=
  l.pf_callback = pf_callback ∧ l.p_user_data = p_user_data

instance (l : vlc_event_listener_t) (c u : Nat) :
    Decidable (listenerMatches l c u) := by
  unfold listenerMatches; infer_instance

/-- Number of invocations of the (callback, user data) pair in a log. -/
def countInvoc (log : List Invocation) (pf_callback p_user_data : Nat) : Nat :=
  log.countP (fun i =>
    decide (i.pf_callback = pf_callback ∧ i.p_user_data = p_user_data))

/-- An interpretation is passive when no callback mutates the manager. -/
def Passive (interp : Interp) : Prop :=
  ∀ c e u m, interp c e u m = m

/-! ### Characterization lemmas for the scans -/

theorem findGroupIdx_some_spec (event_type : Nat)
    (gs : List vlc_event_listeners_group_t) (gi : Nat)
    (h : findGroupIdx event_type gs = some gi) :
    ∃ g, gs[gi]? = some g ∧ g.event_type = event_type ∧
      ∀ k, k < gi → ∀ gk, gs[k]? = some gk → gk.event_type ≠ event_type := by
  induction gs generalizing gi with
  | nil => simp [findGroupIdx] at h
  | cons g0 gs ih =>
    rw [findGroupIdx] at h
    by_cases hg : g0.event_type = event_type
    · rw [if_pos hg] at h
      obtain rfl : (0 : Nat) = gi := Option.some.inj h
      refine ⟨g0, by simp, hg, ?_⟩
      intro k hk
      exact absurd hk (Nat.not_lt_zero k)
    · rw [if_neg hg] at h
      cases hj : findGroupIdx event_type gs with
      | none => rw [hj] at h; exact Option.noConfusion h
      | some j =>
        rw [hj] at h
        obtain rfl : Nat.succ j = gi := Option.some.inj h
        obtain ⟨g, hget, hkey, hbefore⟩ := ih j hj
        refine ⟨g, by simpa using hget, hkey, ?_⟩
        intro k hk gk hgk
        cases k with
        | zero =>
          simp only [List.getElem?_cons_zero] at hgk
          obtain rfl : g0 = gk := Option.some.inj hgk
          exact hg
        | succ k2 =>
          exact hbefore k2 (by omega) gk (by simpa using hgk)

theorem findGroupIdx_none_iff (event_type : Nat)
    (gs : List vlc_event_listeners_group_t) :
    findGroupIdx event_type gs = none ↔ ∀ g ∈ gs, g.event_type ≠ event_type := by
  induction gs with
  | nil => simp [findGroupIdx]
  | cons g0 gs ih =>
    rw [findGroupIdx]
    by_cases hg : g0.event_type = event_type
    · simp [hg]
    · simp [hg, Option.map_eq_none', ih]

theorem attachScan_some_of_find (listener : vlc_event_listener_t)
    (event_type : Nat) (gs : List vlc_event_listeners_group_t) (gi : Nat)
    (g : vlc_event_listeners_group_t)
    (hfind : findGroupIdx event_type gs = some gi) (hget : gs[gi]? = some g) :
    attachScan listener event_type gs =
      some (gs.set gi { g with listeners := g.listeners ++ [listener] }) := by
  induction gs generalizing gi with
  | nil => simp [findGroupIdx] at hfind
  | cons g0 gs ih =>
    rw [findGroupIdx] at hfind
    rw [attachScan]
    by_cases hg : g0.event_type = event_type
    · rw [if_pos hg] at hfind
      rw [if_pos hg]
      obtain rfl : (0 : Nat) = gi := Option.some.inj hfind
      simp only [List.getElem?_cons_zero] at hget
      obtain rfl : g0 = g := Option.some.inj hget
      rfl
    · rw [if_neg hg] at hfind ⊢
      cases hj : findGroupIdx event_type gs with
      | none => rw [hj] at hfind; exact Option.noConfusion hfind
      | some j =>
        rw [hj] at hfind
        obtain rfl : Nat.succ j = gi := Option.some.inj hfind
        simp only [List.getElem?_cons_succ] at hget
        rw [ih j hj hget]
        rfl

theorem attachScan_none_of_find_none (listener : vlc_event_listener_t)
    (event_type : Nat) (gs : List vlc_event_listeners_group_t)
    (hfind : findGroupIdx event_type gs = none) :
    attachScan listener event_type gs = none := by
  induction gs with
  | nil => rfl
  | cons g0 gs ih =>
    rw [findGroupIdx] at hfind
    rw [attachScan]
    by_cases hg : g0.event_type = event_type
    · rw [if_pos hg] at hfind; exact Option.noConfusion hfind
    · rw [if_neg hg] at hfind ⊢
      simp only [Option.map_eq_none'] at hfind
      rw [ih hfind]

theorem detachListeners_none_iff (pf_callback p_user_data : Nat)
    (ls : List vlc_event_listener_t) :
    detachListeners pf_callback p_user_data ls = none ↔
      ∀ l ∈ ls, ¬ listenerMatches l pf_callback p_user_data := by
  induction ls with
  | nil => simp [detachListeners]
  | cons l ls ih =>
    rw [detachListeners]
    by_cases hl : l.pf_callback = pf_callback ∧ l.p_user_data = p_user_data
    · rw [if_pos hl]
      constructor
      · intro h; exact Option.noConfusion h
      · intro h; exact absurd hl (h l (List.mem_cons_self l ls))
    · rw [if_neg hl]
      cases hrec : detachListeners pf_callback p_user_data ls with
      | some ls2 =>
        constructor
        · intro h; exact Option.noConfusion h
        · intro h
          have hnone : detachListeners pf_callback p_user_data ls = none :=
            ih.mpr (fun l2 hl2 => h l2 (List.mem_cons_of_mem l hl2))
          rw [hnone] at hrec
          exact Option.noConfusion hrec
      | none =>
        constructor
        · intro _ l2 hl2
          rcases List.mem_cons.mp hl2 with h2 | h2
          · subst h2; exact hl
          · exact (ih.mp hrec) l2 h2
        · intro _; rfl

theorem detachListeners_some_spec (pf_callback p_user_data : Nat)
    (ls ls2 : List vlc_event_listener_t)
    (h : detachListeners pf_callback p_user_data ls = some ls2) :
    ∃ j l, ls[j]? = some l ∧ listenerMatches l pf_callback p_user_data ∧
      (∀ i, i < j → ∀ li, ls[i]? = some li →
        ¬ listenerMatches li pf_callback p_user_data) ∧
      ls2 = ls.eraseIdx j := by
  induction ls generalizing ls2 with
  | nil => exact Option.noConfusion h
  | cons l ls ih =>
    rw [detachListeners] at h
    by_cases hl : l.pf_callback = pf_callback ∧ l.p_user_data = p_user_data
    · rw [if_pos hl] at h
      obtain rfl : ls = ls2 := Option.some.inj h
      refine ⟨0, l, by simp, hl, ?_, by simp⟩
      intro i hi
      exact absurd hi (Nat.not_lt_zero i)
    · rw [if_neg hl] at h
      cases hrec : detachListeners pf_callback p_user_data ls with
      | none => rw [hrec] at h; exact Option.noConfusion h
      | some lsr =>
        rw [hrec] at h
        obtain rfl : l :: lsr = ls2 := Option.some.inj h
        obtain ⟨j, l2, hget, hm, hbefore, rfl⟩ := ih lsr hrec
        refine ⟨j + 1, l2, by simpa using hget, hm, ?_, by simp⟩
        intro i hi li hgeti
        cases i with
        | zero =>
          simp only [List.getElem?_cons_zero] at hgeti
          obtain rfl : l = li := Option.some.inj hgeti
          exact hl
        | succ i2 =>
          exact hbefore i2 (by omega) li (by simpa using hgeti)

theorem detachGroups_none_iff (event_type pf_callback p_user_data : Nat)
    (gs : List vlc_event_listeners_group_t) :
    detachGroups event_type pf_callback p_user_data gs = none ↔
      ∀ g ∈ gs, g.event_type = event_type →
        ∀ l ∈ g.listeners, ¬ listenerMatches l pf_callback p_user_data := by
  induction gs with
  | nil => simp [detachGroups]
  | cons g gs ih =>
    rw [detachGroups]
    by_cases hg : g.event_type = event_type
    · rw [if_pos hg]
      cases hdl : detachListeners pf_callback p_user_data g.listeners with
      | some ls =>
        constructor
        · intro h; exact Option.noConfusion h
        · intro h
          have hnone : detachListeners pf_callback p_user_data g.listeners = none :=
            (detachListeners_none_iff pf_callback p_user_data g.listeners).mpr
              (h g (List.mem_cons_self g gs) hg)
          rw [hnone] at hdl
          exact Option.noConfusion hdl
      | none =>
        cases hrec : detachGroups event_type pf_callback p_user_data gs with
        | some gs2 =>
          constructor
          · intro h; exact Option.noConfusion h
          · intro h
            have hnone : detachGroups event_type pf_callback p_user_data gs = none :=
              ih.mpr (fun g2 hg2 => h g2 (List.mem_cons_of_mem g hg2))
            rw [hnone] at hrec
            exact Option.noConfusion hrec
        | none =>
          constructor
          · intro _ g2 hg2 hkey
            rcases List.mem_cons.mp hg2 with h2 | h2
            · subst h2
              exact (detachListeners_none_iff pf_callback p_user_data
                g2.listeners).mp hdl
            · exact (ih.mp hrec) g2 h2 hkey
          · intro _; rfl
    · rw [if_neg hg]
      cases hrec : detachGroups event_type pf_callback p_user_data gs with
      | some gs2 =>
        constructor
        · intro h; exact Option.noConfusion h
        · intro h
          have hnone : detachGroups event_type pf_callback p_user_data gs = none :=
            ih.mpr (fun g2 hg2 => h g2 (List.mem_cons_of_mem g hg2))
          rw [hnone] at hrec
          exact Option.noConfusion hrec
      | none =>
        constructor
        · intro _ g2 hg2 hkey
          rcases List.mem_cons.mp hg2 with h2 | h2
          · subst h2; exact absurd hkey hg
          · exact (ih.mp hrec) g2 h2 hkey
        · intro _; rfl

theorem detachGroups_some_spec (event_type pf_callback p_user_data : Nat)
    (gs gs2 : List vlc_event_listeners_group_t)
    (h : detachGroups event_type pf_callback p_user_data gs = some gs2) :
    ∃ gi g ls2, gs[gi]? = some g ∧ g.event_type = event_type ∧
      (∀ k, k < gi → ∀ gk, gs[k]? = some gk → gk.event_type = event_type →
        ∀ l ∈ gk.listeners, ¬ listenerMatches l pf_callback p_user_data) ∧
      detachListeners pf_callback p_user_data g.listeners = some ls2 ∧
      gs2 = gs.set gi { g with listeners := ls2 } := by
  induction gs generalizing gs2 with
  | nil => exact Option.noConfusion h
  | cons g0 gs ih =>
    rw [detachGroups] at h
    by_cases hg : g0.event_type = event_type
    · rw [if_pos hg] at h
      cases hdl : detachListeners pf_callback p_user_data g0.listeners with
      | some ls =>
        rw [hdl] at h
        obtain rfl : { g0 with listeners := ls } :: gs = gs2 := Option.some.inj h
        refine ⟨0, g0, ls, by simp, hg, ?_, hdl, by simp⟩
        intro k hk
        exact absurd hk (Nat.not_lt_zero k)
      | none =>
        rw [hdl] at h
        cases hrec : detachGroups event_type pf_callback p_user_data gs with
        | none => rw [hrec] at h; exact Option.noConfusion h
        | some gsr =>
          rw [hrec] at h
          obtain rfl : g0 :: gsr = gs2 := Option.some.inj h
          obtain ⟨gi, g, ls2, hget, hkey, hbefore, hdl2, rfl⟩ := ih gsr hrec
          refine ⟨gi + 1, g, ls2, by simpa using hget, hkey, ?_, hdl2, by simp⟩
          intro k hk gk hgetk hkeyk
          cases k with
          | zero =>
            simp only [List.getElem?_cons_zero] at hgetk
            obtain rfl : g0 = gk := Option.some.inj hgetk
            exact (detachListeners_none_iff pf_callback p_user_data
              g0.listeners).mp hdl
          | succ k2 =>
            exact hbefore k2 (by omega) gk (by simpa using hgetk) hkeyk
    · rw [if_neg hg] at h
      cases hrec : detachGroups event_type pf_callback p_user_data gs with
      | none => rw [hrec] at h; exact Option.noConfusion h
      | some gsr =>
        rw [hrec] at h
        obtain rfl : g0 :: gsr = gs2 := Option.some.inj h
        obtain ⟨gi, g, ls2, hget, hkey, hbefore, hdl2, rfl⟩ := ih gsr hrec
        refine ⟨gi + 1, g, ls2, by simpa using hget, hkey, ?_, hdl2, by simp⟩
        intro k hk gk hgetk hkeyk
        cases k with
        | zero =>
          simp only [List.getElem?_cons_zero] at hgetk
          obtain rfl : g0 = gk := Option.some.inj hgetk
          exact absurd hkeyk hg
        | succ k2 =>
          exact hbefore k2 (by omega) gk (by simpa using hgetk) hkeyk

theorem detachGroups_first (event_type pf_callback p_user_data : Nat)
    (gs : List vlc_event_listeners_group_t) (gi : Nat)
    (g : vlc_event_listeners_group_t) (ls2 : List vlc_event_listener_t)
    (hfind : findGroupIdx event_type gs = some gi) (hget : gs[gi]? = some g)
    (hdl : detachListeners pf_callback p_user_data g.listeners = some ls2) :
    detachGroups event_type pf_callback p_user_data gs =
      some (gs.set gi { g with listeners := ls2 }) := by
  induction gs generalizing gi with
  | nil => simp [findGroupIdx] at hfind
  | cons g0 gs ih =>
    rw [findGroupIdx] at hfind
    rw [detachGroups]
    by_cases hg : g0.event_type = event_type
    · rw [if_pos hg] at hfind
      rw [if_pos hg]
      obtain rfl : (0 : Nat) = gi := Option.some.inj hfind
      simp only [List.getElem?_cons_zero] at hget
      obtain rfl : g0 = g := Option.some.inj hget
      rw [hdl]
      rfl
    · rw [if_neg hg] at hfind ⊢
      cases hj : findGroupIdx event_type gs with
      | none => rw [hj] at hfind; exact Option.noConfusion hfind
      | some j =>
        rw [hj] at hfind
        obtain rfl : Nat.succ j = gi := Option.some.inj hfind
        simp only [List.getElem?_cons_succ] at hget
        rw [ih j hj hget]
        rfl

theorem attachScan_map_key (listener : vlc_event_listener_t)
    (event_type : Nat) (gs gs2 : List vlc_event_listeners_group_t)
    (h : attachScan listener event_type gs = some gs2) :
    gs2.map vlc_event_listeners_group_t.event_type =
      gs.map vlc_event_listeners_group_t.event_type := by
  induction gs generalizing gs2 with
  | nil => exact Option.noConfusion h
  | cons g0 gs ih =>
    rw [attachScan] at h
    by_cases hg : g0.event_type = event_type
    · rw [if_pos hg] at h
      obtain rfl := Option.some.inj h
      simp
    · rw [if_neg hg] at h
      cases hrec : attachScan listener event_type gs with
      | none => rw [hrec] at h; exact Option.noConfusion h
      | some gsr =>
        rw [hrec] at h
        obtain rfl := Option.some.inj h
        simp [ih gsr hrec]

theorem detachGroups_map_key (event_type pf_callback p_user_data : Nat)
    (gs gs2 : List vlc_event_listeners_group_t)
    (h : detachGroups event_type pf_callback p_user_data gs = some gs2) :
    gs2.map vlc_event_listeners_group_t.event_type =
      gs.map vlc_event_listeners_group_t.event_type := by
  obtain ⟨gi, g, ls2, hget, hkey, _, _, rfl⟩ :=
    detachGroups_some_spec event_type pf_callback p_user_data gs gs2 h
  rw [List.map_set]
  have : (gs.map vlc_event_listeners_group_t.event_type)[gi]? =
      some g.event_type := by
    rw [List.getElem?_map, hget]
    rfl
  calc (gs.map vlc_event_listeners_group_t.event_type).set gi g.event_type
      = gs.map vlc_event_listeners_group_t.event_type := by
        apply List.ext_getElem?
        intro n
        by_cases hn : n = gi
        · subst hn
          rw [List.getElem?_set_self] at *
          · rw [this]
          · exact (List.getElem?_eq_some_iff.mp this).1
        · rw [List.getElem?_set_ne (fun e => hn e.symm)]

/-! ### Dispatch-loop lemmas -/

theorem sendLoop_passive_fst (interp : Interp) (hp : Passive interp)
    (gi : Nat) (ev : vlc_event_t) :
    ∀ (fuel fe_idx : Nat) (em : vlc_event_manager_t),
      (sendLoop interp gi ev fuel fe_idx em).1 = em := by
  intro fuel
  induction fuel with
  | zero =>
    intro fe_idx em
    rw [sendLoop]
    split <;> rfl
  | succ fuel ih =>
    intro fe_idx em
    rw [sendLoop]
    by_cases h : fe_idx < (groupListenersAt em gi).length
    · rw [dif_pos h]
      have hp2 : ∀ c e u m, interp c e u m = m := hp
      simp only [hp2]
      exact ih (fe_idx + 1) em
    · rw [dif_neg h]

theorem sendLoop_passive_spec (interp : Interp) (hp : Passive interp)
    (gi : Nat) (ev : vlc_event_t) :
    ∀ (fuel fe_idx : Nat) (em : vlc_event_manager_t),
      (groupListenersAt em gi).length ≤ fe_idx + fuel →
      sendLoop interp gi ev fuel fe_idx em =
        (em, ((groupListenersAt em gi).drop fe_idx).map
          (fun l => { pf_callback := l.pf_callback,
                      p_user_data := l.p_user_data, ev := ev }), true) := by
  intro fuel
  induction fuel with
  | zero =>
    intro fe_idx em hfuel
    have hle : (groupListenersAt em gi).length ≤ fe_idx := by omega
    rw [sendLoop]
    rw [if_neg (by omega)]
    rw [List.drop_eq_nil_of_le hle]
    rfl
  | succ fuel ih =>
    intro fe_idx em hfuel
    rw [sendLoop]
    by_cases h : fe_idx < (groupListenersAt em gi).length
    · have hdrop : (groupListenersAt em gi).drop fe_idx =
          (groupListenersAt em gi)[fe_idx] :: (groupListenersAt em gi).drop (fe_idx + 1) :=
        List.drop_eq_getElem_cons h
      rw [dif_pos h]
      have hp2 : ∀ c e u m, interp c e u m = m := hp
      simp only [hp2]
      rw [ih (fe_idx + 1) em (by omega), hdrop, List.map_cons]
      rfl
    · rw [dif_neg h]
      rw [List.drop_eq_nil_of_le (by omega)]
      rfl

theorem groupListenersAt_eq (p_em : vlc_event_manager_t) (gi : Nat)
    (g : vlc_event_listeners_group_t)
    (hget : p_em.listeners_groups[gi]? = some g) :
    groupListenersAt p_em gi = g.listeners := by
  unfold groupListenersAt
  rw [hget]

theorem groupListenersAt_set (p_em : vlc_event_manager_t) (gi : Nat)
    (g2 : vlc_event_listeners_group_t)
    (hlt : gi < p_em.listeners_groups.length) :
    groupListenersAt
      { p_em with listeners_groups := p_em.listeners_groups.set gi g2 } gi =
      g2.listeners := by
  unfold groupListenersAt
  simp only []
  rw [List.getElem?_set_self]
  exact hlt

theorem findGroupIdx_congr (event_type : Nat) :
    ∀ (gs gs2 : List vlc_event_listeners_group_t),
      gs.map vlc_event_listeners_group_t.event_type =
        gs2.map vlc_event_listeners_group_t.event_type →
      findGroupIdx event_type gs = findGroupIdx event_type gs2
  | [], [], _ => rfl
  | [], g2 :: gs2, h => by simp at h
  | g :: gs, [], h => by simp at h
  | g :: gs, g2 :: gs2, h => by
    simp only [List.map_cons, List.cons.injEq] at h
    rw [findGroupIdx, findGroupIdx, h.1,
      findGroupIdx_congr event_type gs gs2 h.2]

theorem countInvoc_map (ls : List vlc_event_listener_t) (ev : vlc_event_t)
    (pf_callback p_user_data : Nat) :
    countInvoc (ls.map (fun l => { pf_callback := l.pf_callback,
                                   p_user_data := l.p_user_data,
                                   ev := ev })) pf_callback p_user_data =
      ls.countP (fun l => decide (listenerMatches l pf_callback p_user_data)) := by
  unfold countInvoc
  rw [List.countP_map]
  rfl

/-- vlc_event_send under a passive interpretation with sufficient fuel:
the state is unchanged and the invocation log is the listener array of the
first matching group, in array order, each invoked once with the stamped
event. -/
theorem vlc_event_send_passive (interp : Interp) (hp : Passive interp)
    (fuel : Nat) (p_em : vlc_event_manager_t) (p_event : vlc_event_t)
    (gi : Nat)
    (hfind : findGroupIdx p_event.type p_em.listeners_groups = some gi)
    (hfuel : (groupListenersAt p_em gi).length ≤ fuel) :
    vlc_event_send interp fuel p_em p_event =
      { em := p_em,
        p_event := { p_event with p_obj := p_em.p_obj },
        invocations := (groupListenersAt p_em gi).map
          (fun l => { pf_callback := l.pf_callback,
                      p_user_data := l.p_user_data,
                      ev := { p_event with p_obj := p_em.p_obj } }),
        msgs := 0, ok := true } := by
  unfold vlc_event_send
  simp only []
  rw [hfind]
  dsimp only []
  rw [sendLoop_passive_spec interp hp gi _ fuel 0 p_em (by omega)]
  rfl

theorem sendLoop_done (interp : Interp) (gi : Nat) (ev : vlc_event_t)
    (fuel fe_idx : Nat) (em : vlc_event_manager_t)
    (h : ¬ fe_idx < (groupListenersAt em gi).length) :
    sendLoop interp gi ev fuel fe_idx em = (em, [], true) := by
  cases fuel with
  | zero => rw [sendLoop, if_neg h]
  | succ fuel => rw [sendLoop, dif_neg h]

/-- The success case of __vlc_event_attach: with gi the first matching
group index, the new listener is appended at the end of the array of that
group and nothing else changes. -/
theorem attach_first_spec (p_em : vlc_event_manager_t)
    (event_type pf_callback p_user_data : Nat) (gi : Nat)
    (g : vlc_event_listeners_group_t)
    (hfind : findGroupIdx event_type p_em.listeners_groups = some gi)
    (hget : p_em.listeners_groups[gi]? = some g) :
    __vlc_event_attach p_em event_type pf_callback p_user_data =
      { em := { p_em with
                  listeners_groups := p_em.listeners_groups.set gi
                    { g with
                        listeners := g.listeners ++
                          [{ p_user_data := p_user_data,
                             pf_callback := pf_callback }] } },
        ret := VLC_SUCCESS, errors_reported := 0 } := by
  unfold __vlc_event_attach
  simp only []
  rw [attachScan_some_of_find _ _ _ gi g hfind hget]

/-! ### Claim theorems -/

/-- C10: vlc_event_send overwrites the p_obj (source) field of the caller
event with the owner object of the manager before the category lookup, so
every send, including one whose event type matches no registered group,
returns the caller event with its source field set to the owner while the
type and payload fields are unchanged. -/
theorem C10_send_stamps_source (interp : Interp) (fuel : Nat)
    (p_em : vlc_event_manager_t) (p_event : vlc_event_t) :
    (vlc_event_send interp fuel p_em p_event).p_event =
      { type := p_event.type, p_obj := p_em.p_obj,
        payload := p_event.payload } := by
  unfold vlc_event_send
  simp only []
  cases findGroupIdx p_event.type p_em.listeners_groups <;> rfl

/-- C4: a send whose event type matches no registered group invokes no
callback, emits no diagnostic, leaves the manager state unchanged, and
completes; the only effect is the source stamp on the caller event. -/
theorem C4_send_unregistered_silent_noop (interp : Interp) (fuel : Nat)
    (p_em : vlc_event_manager_t) (p_event : vlc_event_t)
    (hfind : findGroupIdx p_event.type p_em.listeners_groups = none) :
    vlc_event_send interp fuel p_em p_event =
      { em := p_em,
        p_event := { p_event with p_obj := p_em.p_obj },
        invocations := [], msgs := 0, ok := true } := by
  unfold vlc_event_send
  simp only []
  rw [hfind]

/-- C4 witness: sending an event of unregistered type 2 to a manager whose
only group has type 1 changes nothing and invokes nothing. -/
theorem C4_send_unregistered_silent_noop_witness :
    vlc_event_send (fun _ _ _ m => m) 3
      { p_obj := 7, p_parent_object := 8,
        listeners_groups := [{ event_type := 1,
                               listeners := [{ p_user_data := 20,
                                               pf_callback := 10 }] }] }
      { type := 2, p_obj := 0, payload := 5 } =
      { em := { p_obj := 7, p_parent_object := 8,
                listeners_groups := [{ event_type := 1,
                                       listeners := [{ p_user_data := 20,
                                                       pf_callback := 10 }] }] },
        p_event := { type := 2, p_obj := 7, payload := 5 },
        invocations := [], msgs := 0, ok := true } :=
  C4_send_unregistered_silent_noop (fun _ _ _ m => m) 3
    { p_obj := 7, p_parent_object := 8,
      listeners_groups := [{ event_type := 1,
                             listeners := [{ p_user_data := 20,
                                             pf_callback := 10 }] }] }
    { type := 2, p_obj := 0, payload := 5 } (by decide)

/-- C5: attaching to an event type with no registered group leaves the
manager state unchanged (the allocated listener is freed, modelled by the
state staying equal), reports one msg_Err diagnostic, and returns
VLC_EGENERIC (the unknown-event-type error). -/
theorem C5_attach_unknown_type (p_em : vlc_event_manager_t)
    (event_type pf_callback p_user_data : Nat)
    (hfind : findGroupIdx event_type p_em.listeners_groups = none) :
    __vlc_event_attach p_em event_type pf_callback p_user_data =
      { em := p_em, ret := VLC_EGENERIC, errors_reported := 1 } := by
  unfold __vlc_event_attach
  simp only []
  rw [attachScan_none_of_find_none _ _ _ hfind]

/-- C5 witness: attaching to the never-registered type 2 on a manager that
only registered type 1 fails with one error report and no state change. -/
theorem C5_attach_unknown_type_witness :
    __vlc_event_attach
      { p_obj := 7, p_parent_object := 8,
        listeners_groups := [{ event_type := 1, listeners := [] }] }
      2 10 20 =
      { em := { p_obj := 7, p_parent_object := 8,
                listeners_groups := [{ event_type := 1, listeners := [] }] },
        ret := VLC_EGENERIC, errors_reported := 1 } :=
  C5_attach_unknown_type
    { p_obj := 7, p_parent_object := 8,
      listeners_groups := [{ event_type := 1, listeners := [] }] }
    2 10 20 (by decide)

/-- C3: on a manager where event_type is registered (gi is the first
matching group index) and no listener of that group already holds the pair
(pf_callback, p_user_data), attaching the pair and then sending an event
of that type (with all callbacks passive and enough fuel) returns success
from attach and invokes pf_callback with p_user_data exactly once, and
every callback invocation of that send receives the event with its source
field equal to the owner object and its type and payload unchanged. -/
theorem C3_attach_then_send_invokes_once (interp : Interp) (fuel : Nat)
    (p_em : vlc_event_manager_t)
    (event_type pf_callback p_user_data p_obj0 payload gi : Nat)
    (hp : Passive interp)
    (hfind : findGroupIdx event_type p_em.listeners_groups = some gi)
    (hnew : ∀ l ∈ groupListenersAt p_em gi,
      ¬ listenerMatches l pf_callback p_user_data)
    (hfuel : (groupListenersAt p_em gi).length + 1 ≤ fuel) :
    (__vlc_event_attach p_em event_type pf_callback p_user_data).ret =
      VLC_SUCCESS ∧
    countInvoc (vlc_event_send interp fuel
        (__vlc_event_attach p_em event_type pf_callback p_user_data).em
        { type := event_type, p_obj := p_obj0,
          payload := payload }).invocations pf_callback p_user_data = 1 ∧
    ∀ i ∈ (vlc_event_send interp fuel
        (__vlc_event_attach p_em event_type pf_callback p_user_data).em
        { type := event_type, p_obj := p_obj0,
          payload := payload }).invocations,
      i.ev.p_obj = p_em.p_obj ∧ i.ev.type = event_type ∧
        i.ev.payload = payload := by
  obtain ⟨g, hget, hkey, _⟩ :=
    findGroupIdx_some_spec event_type p_em.listeners_groups gi hfind
  have hlt : gi < p_em.listeners_groups.length :=
    (List.getElem?_eq_some_iff.mp hget).1
  have hattach :=
    attach_first_spec p_em event_type pf_callback p_user_data gi g hfind hget
  have hmap := attachScan_map_key
    { p_user_data := p_user_data, pf_callback := pf_callback }
    event_type p_em.listeners_groups _
    (attachScan_some_of_find
      { p_user_data := p_user_data, pf_callback := pf_callback }
      event_type p_em.listeners_groups gi g hfind hget)
  have hfind1 : findGroupIdx event_type
      (p_em.listeners_groups.set gi
        { g with
            listeners := g.listeners ++
              [{ p_user_data := p_user_data,
                 pf_callback := pf_callback }] }) = some gi := by
    rw [findGroupIdx_congr event_type _ p_em.listeners_groups hmap]
    exact hfind
  have hga1 := groupListenersAt_set p_em gi
    { g with
        listeners := g.listeners ++
          [{ p_user_data := p_user_data, pf_callback := pf_callback }] } hlt
  have hgal : groupListenersAt p_em gi = g.listeners :=
    groupListenersAt_eq p_em gi g hget
  rw [hattach]
  dsimp only []
  have hfuelx : (groupListenersAt
      { p_em with
          listeners_groups := p_em.listeners_groups.set gi
            { g with
                listeners := g.listeners ++
                  [{ p_user_data := p_user_data,
                     pf_callback := pf_callback }] } } gi).length ≤ fuel := by
    rw [hga1]
    rw [hgal] at hfuel
    simp only [List.length_append, List.length_cons, List.length_nil]
    omega
  have hsend := vlc_event_send_passive interp hp fuel
    { p_em with
        listeners_groups := p_em.listeners_groups.set gi
          { g with
              listeners := g.listeners ++
                [{ p_user_data := p_user_data,
                   pf_callback := pf_callback }] } }
    { type := event_type, p_obj := p_obj0, payload := payload } gi
    hfind1 hfuelx
  rw [hsend]
  dsimp only []
  rw [hga1]
  refine ⟨rfl, ?_, ?_⟩
  · rw [countInvoc_map, List.countP_append]
    have h0 : g.listeners.countP
        (fun l => decide (listenerMatches l pf_callback p_user_data)) = 0 := by
      rw [List.countP_eq_zero]
      intro l hl
      rw [hgal] at hnew
      simpa using hnew l hl
    rw [h0]
    simp [listenerMatches]
  · intro i hi
    obtain ⟨l, _, rfl⟩ := List.mem_map.mp hi
    exact ⟨rfl, rfl, rfl⟩

/-- C3 witness: a concrete manager with registered type 1 and one
unrelated listener; attaching (10, 20) then sending type 1 invokes
callback 10 with user data 20 exactly once, with the owner 7 stamped on
the event seen by every callback. -/
theorem C3_attach_then_send_invokes_once_witness :
    (__vlc_event_attach
      { p_obj := 7, p_parent_object := 8,
        listeners_groups := [{ event_type := 1,
                               listeners := [{ p_user_data := 99,
                                               pf_callback := 5 }] }] }
      1 10 20).ret = VLC_SUCCESS ∧
    countInvoc (vlc_event_send (fun _ _ _ m => m) 3
        (__vlc_event_attach
          { p_obj := 7, p_parent_object := 8,
            listeners_groups := [{ event_type := 1,
                                   listeners := [{ p_user_data := 99,
                                                   pf_callback := 5 }] }] }
          1 10 20).em
        { type := 1, p_obj := 0, payload := 3 }).invocations 10 20 = 1 ∧
    ∀ i ∈ (vlc_event_send (fun _ _ _ m => m) 3
        (__vlc_event_attach
          { p_obj := 7, p_parent_object := 8,
            listeners_groups := [{ event_type := 1,
                                   listeners := [{ p_user_data := 99,
                                                   pf_callback := 5 }] }] }
          1 10 20).em
        { type := 1, p_obj := 0, payload := 3 }).invocations,
      i.ev.p_obj = 7 ∧ i.ev.type = 1 ∧ i.ev.payload = 3 :=
  C3_attach_then_send_invokes_once (fun _ _ _ m => m) 3
    { p_obj := 7, p_parent_object := 8,
      listeners_groups := [{ event_type := 1,
                             listeners := [{ p_user_data := 99,
                                             pf_callback := 5 }] }] }
    1 10 20 0 3 0 (fun _ _ _ _ => rfl) (by decide) (by decide) (by decide)

/-- C7: attaching the identical (pf_callback, p_user_data) pair twice to a
registered category (first matching group index gi, pair not previously
present) creates two independent listener entries appended at the end of
that group, and one subsequent send of that category (passive callbacks,
enough fuel) invokes the pair exactly twice. -/
theorem C7_duplicate_attach_two_invocations (interp : Interp) (fuel : Nat)
    (p_em : vlc_event_manager_t)
    (event_type pf_callback p_user_data p_obj0 payload gi : Nat)
    (hp : Passive interp)
    (hfind : findGroupIdx event_type p_em.listeners_groups = some gi)
    (hnew : ∀ l ∈ groupListenersAt p_em gi,
      ¬ listenerMatches l pf_callback p_user_data)
    (hfuel : (groupListenersAt p_em gi).length + 2 ≤ fuel) :
    groupListenersAt
        (__vlc_event_attach
          (__vlc_event_attach p_em event_type pf_callback p_user_data).em
          event_type pf_callback p_user_data).em gi =
      groupListenersAt p_em gi ++
        [{ p_user_data := p_user_data, pf_callback := pf_callback },
         { p_user_data := p_user_data, pf_callback := pf_callback }] ∧
    countInvoc (vlc_event_send interp fuel
        (__vlc_event_attach
          (__vlc_event_attach p_em event_type pf_callback p_user_data).em
          event_type pf_callback p_user_data).em
        { type := event_type, p_obj := p_obj0,
          payload := payload }).invocations pf_callback p_user_data = 2 := by
  obtain ⟨g, hget, hkey, _⟩ :=
    findGroupIdx_some_spec event_type p_em.listeners_groups gi hfind
  have hlt : gi < p_em.listeners_groups.length :=
    (List.getElem?_eq_some_iff.mp hget).1
  have hgal : groupListenersAt p_em gi = g.listeners :=
    groupListenersAt_eq p_em gi g hget
  have hattach1 :=
    attach_first_spec p_em event_type pf_callback p_user_data gi g hfind hget
  have hmap1 := attachScan_map_key
    { p_user_data := p_user_data, pf_callback := pf_callback }
    event_type p_em.listeners_groups _
    (attachScan_some_of_find
      { p_user_data := p_user_data, pf_callback := pf_callback }
      event_type p_em.listeners_groups gi g hfind hget)
  have hfind1 : findGroupIdx event_type
      (p_em.listeners_groups.set gi
        { g with
            listeners := g.listeners ++
              [{ p_user_data := p_user_data,
                 pf_callback := pf_callback }] }) = some gi := by
    rw [findGroupIdx_congr event_type _ p_em.listeners_groups hmap1]
    exact hfind
  have hget1 : (p_em.listeners_groups.set gi
      { g with
          listeners := g.listeners ++
            [{ p_user_data := p_user_data,
               pf_callback := pf_callback }] })[gi]? =
      some { g with
               listeners := g.listeners ++
                 [{ p_user_data := p_user_data,
                    pf_callback := pf_callback }] } := by
    rw [List.getElem?_set_self]
    exact hlt
  have hattach2 := attach_first_spec
    { p_em with
        listeners_groups := p_em.listeners_groups.set gi
          { g with
              listeners := g.listeners ++
                [{ p_user_data := p_user_data,
                   pf_callback := pf_callback }] } }
    event_type pf_callback p_user_data gi
    { g with
        listeners := g.listeners ++
          [{ p_user_data := p_user_data, pf_callback := pf_callback }] }
    hfind1 hget1
  have hmap2 := attachScan_map_key
    { p_user_data := p_user_data, pf_callback := pf_callback }
    event_type
    (p_em.listeners_groups.set gi
      { g with
          listeners := g.listeners ++
            [{ p_user_data := p_user_data, pf_callback := pf_callback }] }) _
    (attachScan_some_of_find
      { p_user_data := p_user_data, pf_callback := pf_callback }
      event_type
      (p_em.listeners_groups.set gi
        { g with
            listeners := g.listeners ++
              [{ p_user_data := p_user_data,
                 pf_callback := pf_callback }] }) gi
      { g with
          listeners := g.listeners ++
            [{ p_user_data := p_user_data, pf_callback := pf_callback }] }
      hfind1 hget1)
  have hlt1 : gi < (p_em.listeners_groups.set gi
      { g with
          listeners := g.listeners ++
            [{ p_user_data := p_user_data,
               pf_callback := pf_callback }] }).length := by
    simpa using hlt
  have hga2 := groupListenersAt_set
    { p_em with
        listeners_groups := p_em.listeners_groups.set gi
          { g with
              listeners := g.listeners ++
                [{ p_user_data := p_user_data,
                   pf_callback := pf_callback }] } } gi
    { g with
        listeners := (g.listeners ++
          [{ p_user_data := p_user_data, pf_callback := pf_callback }]) ++
          [{ p_user_data := p_user_data, pf_callback := pf_callback }] }
    hlt1
  have hfind2 : findGroupIdx event_type
      ((p_em.listeners_groups.set gi
        { g with
            listeners := g.listeners ++
              [{ p_user_data := p_user_data,
                 pf_callback := pf_callback }] }).set gi
        { g with
            listeners := (g.listeners ++
              [{ p_user_data := p_user_data, pf_callback := pf_callback }]) ++
              [{ p_user_data := p_user_data,
                 pf_callback := pf_callback }] }) = some gi := by
    rw [findGroupIdx_congr event_type _ _ hmap2]
    exact hfind1
  have hfuel2 : (groupListenersAt
      { p_em with
          listeners_groups := (p_em.listeners_groups.set gi
            { g with
                listeners := g.listeners ++
                  [{ p_user_data := p_user_data,
                     pf_callback := pf_callback }] }).set gi
            { g with
                listeners := (g.listeners ++
                  [{ p_user_data := p_user_data,
                     pf_callback := pf_callback }]) ++
                  [{ p_user_data := p_user_data,
                     pf_callback := pf_callback }] } } gi).length ≤ fuel := by
    rw [hga2]
    rw [hgal] at hfuel
    simp only [List.length_append, List.length_cons, List.length_nil]
    omega
  have hsend := vlc_event_send_passive interp hp fuel
    { p_em with
        listeners_groups := (p_em.listeners_groups.set gi
          { g with
              listeners := g.listeners ++
                [{ p_user_data := p_user_data,
                   pf_callback := pf_callback }] }).set gi
          { g with
              listeners := (g.listeners ++
                [{ p_user_data := p_user_data,
                   pf_callback := pf_callback }]) ++
                [{ p_user_data := p_user_data,
                   pf_callback := pf_callback }] } }
    { type := event_type, p_obj := p_obj0, payload := payload } gi
    hfind2 hfuel2
  rw [hattach1]
  dsimp only []
  rw [hattach2]
  dsimp only []
  rw [hsend]
  dsimp only []
  rw [hga2]
  constructor
  · rw [hgal]
    simp
  · rw [countInvoc_map]
    dsimp only []
    rw [List.countP_append, List.countP_append]
    have h0 : g.listeners.countP
        (fun l => decide (listenerMatches l pf_callback p_user_data)) = 0 := by
      rw [List.countP_eq_zero]
      intro l hl
      rw [hgal] at hnew
      simpa using hnew l hl
    rw [h0]
    simp [listenerMatches]

/-- C7 witness: attaching (10, 20) twice to category 1 of a concrete
manager and sending once invokes the pair exactly twice. -/
theorem C7_duplicate_attach_two_invocations_witness :
    groupListenersAt
        (__vlc_event_attach
          (__vlc_event_attach
            { p_obj := 7, p_parent_object := 8,
              listeners_groups := [{ event_type := 1,
                                     listeners := [{ p_user_data := 99,
                                                     pf_callback := 5 }] }] }
            1 10 20).em
          1 10 20).em 0 =
      groupListenersAt
        { p_obj := 7, p_parent_object := 8,
          listeners_groups := [{ event_type := 1,
                                 listeners := [{ p_user_data := 99,
                                                 pf_callback := 5 }] }] } 0 ++
        [{ p_user_data := 20, pf_callback := 10 },
         { p_user_data := 20, pf_callback := 10 }] ∧
    countInvoc (vlc_event_send (fun _ _ _ m => m) 4
        (__vlc_event_attach
          (__vlc_event_attach
            { p_obj := 7, p_parent_object := 8,
              listeners_groups := [{ event_type := 1,
                                     listeners := [{ p_user_data := 99,
                                                     pf_callback := 5 }] }] }
            1 10 20).em
          1 10 20).em
        { type := 1, p_obj := 0, payload := 3 }).invocations 10 20 = 2 :=
  C7_duplicate_attach_two_invocations (fun _ _ _ m => m) 4
    { p_obj := 7, p_parent_object := 8,
      listeners_groups := [{ event_type := 1,
                             listeners := [{ p_user_data := 99,
                                             pf_callback := 5 }] }] }
    1 10 20 0 3 0 (fun _ _ _ _ => rfl) (by decide) (by decide) (by decide)

/-- C8: for a single send under passive callbacks with enough fuel, the
invocation log is exactly the listener array of the first group matching
the event type, mapped in array order; and attach appends a new listener
at the end of that array, so array order is attachment order. -/
theorem C8_dispatch_in_registration_order (interp : Interp) (fuel : Nat)
    (p_em : vlc_event_manager_t) (p_event : vlc_event_t)
    (gi pf_callback p_user_data : Nat)
    (hp : Passive interp)
    (hfind : findGroupIdx p_event.type p_em.listeners_groups = some gi)
    (hfuel : (groupListenersAt p_em gi).length ≤ fuel) :
    (vlc_event_send interp fuel p_em p_event).invocations =
      (groupListenersAt p_em gi).map
        (fun l => { pf_callback := l.pf_callback,
                    p_user_data := l.p_user_data,
                    ev := { p_event with p_obj := p_em.p_obj } }) ∧
    (vlc_event_send interp fuel p_em p_event).ok = true ∧
    ∀ g, p_em.listeners_groups[gi]? = some g →
      (__vlc_event_attach p_em p_event.type pf_callback p_user_data).em.listeners_groups =
        p_em.listeners_groups.set gi
          { g with
              listeners := g.listeners ++
                [{ p_user_data := p_user_data,
                   pf_callback := pf_callback }] } := by
  have hsend := vlc_event_send_passive interp hp fuel p_em p_event gi hfind hfuel
  refine ⟨by rw [hsend], by rw [hsend], ?_⟩
  intro g hget
  rw [attach_first_spec p_em p_event.type pf_callback p_user_data gi g hfind hget]

/-- C8 witness: a send on a concrete manager with two listeners on
category 1 produces the invocation log in array order, and attach appends
at the end. -/
theorem C8_dispatch_in_registration_order_witness :
    (vlc_event_send (fun _ _ _ m => m) 3
      { p_obj := 7, p_parent_object := 8,
        listeners_groups := [{ event_type := 1,
                               listeners := [{ p_user_data := 20,
                                               pf_callback := 10 },
                                             { p_user_data := 21,
                                               pf_callback := 11 }] }] }
      { type := 1, p_obj := 0, payload := 9 }).invocations =
      (groupListenersAt
        { p_obj := 7, p_parent_object := 8,
          listeners_groups := [{ event_type := 1,
                                 listeners := [{ p_user_data := 20,
                                                 pf_callback := 10 },
                                               { p_user_data := 21,
                                                 pf_callback := 11 }] }] } 0).map
        (fun l => { pf_callback := l.pf_callback,
                    p_user_data := l.p_user_data,
                    ev := { type := 1, p_obj := 7, payload := 9 } }) ∧
    (vlc_event_send (fun _ _ _ m => m) 3
      { p_obj := 7, p_parent_object := 8,
        listeners_groups := [{ event_type := 1,
                               listeners := [{ p_user_data := 20,
                                               pf_callback := 10 },
                                             { p_user_data := 21,
                                               pf_callback := 11 }] }] }
      { type := 1, p_obj := 0, payload := 9 }).ok = true ∧
    ∀ g, ({ p_obj := 7, p_parent_object := 8,
            listeners_groups := [{ event_type := 1,
                                   listeners := [{ p_user_data := 20,
                                                   pf_callback := 10 },
                                                 { p_user_data := 21,
                                                   pf_callback := 11 }] }] } :
        vlc_event_manager_t).listeners_groups[0]? = some g →
      (__vlc_event_attach
        { p_obj := 7, p_parent_object := 8,
          listeners_groups := [{ event_type := 1,
                                 listeners := [{ p_user_data := 20,
                                                 pf_callback := 10 },
                                               { p_user_data := 21,
                                                 pf_callback := 11 }] }] }
        1 12 22).em.listeners_groups =
        ({ p_obj := 7, p_parent_object := 8,
           listeners_groups := [{ event_type := 1,
                                  listeners := [{ p_user_data := 20,
                                                  pf_callback := 10 },
                                                { p_user_data := 21,
                                                  pf_callback := 11 }] }] } :
          vlc_event_manager_t).listeners_groups.set 0
          { g with
              listeners := g.listeners ++ [{ p_user_data := 22,
                                             pf_callback := 12 }] } :=
  C8_dispatch_in_registration_order (fun _ _ _ m => m) 3
    { p_obj := 7, p_parent_object := 8,
      listeners_groups := [{ event_type := 1,
                             listeners := [{ p_user_data := 20,
                                             pf_callback := 10 },
                                           { p_user_data := 21,
                                             pf_callback := 11 }] }] }
    { type := 1, p_obj := 0, payload := 9 }
    0 12 22 (fun _ _ _ _ => rfl) (by decide) (by decide)

/-- C6: registering an event type never checks for an existing group: even
when a group with the same key already exists, the call appends another
live group at the end and returns success; and attach and send resolve
only to the first matching group gi, so attach leaves every group other
than gi untouched and send (passive callbacks, enough fuel) draws its
invocations only from the listener array of group gi — later duplicate
groups receive neither listeners nor events. -/
theorem C6_duplicate_groups_first_wins (interp : Interp) (fuel : Nat)
    (p_em : vlc_event_manager_t)
    (event_type pf_callback p_user_data p_obj0 payload gi : Nat)
    (hp : Passive interp)
    (_hdup : ∃ g ∈ p_em.listeners_groups, g.event_type = event_type)
    (hfind : findGroupIdx event_type p_em.listeners_groups = some gi)
    (hfuel : (groupListenersAt p_em gi).length ≤ fuel) :
    vlc_event_manager_register_event_type p_em event_type =
      ({ p_em with
           listeners_groups := p_em.listeners_groups ++
             [{ event_type := event_type, listeners := [] }] }, VLC_SUCCESS) ∧
    (∀ j, j ≠ gi →
      (__vlc_event_attach p_em event_type pf_callback
          p_user_data).em.listeners_groups[j]? =
        p_em.listeners_groups[j]?) ∧
    (vlc_event_send interp fuel p_em
        { type := event_type, p_obj := p_obj0,
          payload := payload }).invocations =
      (groupListenersAt p_em gi).map
        (fun l => { pf_callback := l.pf_callback,
                    p_user_data := l.p_user_data,
                    ev := { type := event_type, p_obj := p_em.p_obj,
                            payload := payload } }) := by
  obtain ⟨g, hget, hkey, _⟩ :=
    findGroupIdx_some_spec event_type p_em.listeners_groups gi hfind
  refine ⟨rfl, ?_, ?_⟩
  · intro j hj
    rw [attach_first_spec p_em event_type pf_callback p_user_data gi g
      hfind hget]
    dsimp only []
    rw [List.getElem?_set_ne (Ne.symm hj)]
  · rw [vlc_event_send_passive interp hp fuel p_em
      { type := event_type, p_obj := p_obj0, payload := payload } gi
      hfind hfuel]

/-- C6 witness: a manager with two live groups for key 1 (the second
registered twice, hence orphaned); register appends a third, attach only
changes group 0, send only invokes listeners of group 0. -/
theorem C6_duplicate_groups_first_wins_witness :
    vlc_event_manager_register_event_type
      { p_obj := 7, p_parent_object := 8,
        listeners_groups := [{ event_type := 1,
                               listeners := [{ p_user_data := 20,
                                               pf_callback := 10 }] },
                             { event_type := 1, listeners := [] }] } 1 =
      ({ p_obj := 7, p_parent_object := 8,
         listeners_groups := [{ event_type := 1,
                                listeners := [{ p_user_data := 20,
                                                pf_callback := 10 }] },
                              { event_type := 1, listeners := [] },
                              { event_type := 1, listeners := [] }] },
       VLC_SUCCESS) ∧
    (∀ j, j ≠ 0 →
      (__vlc_event_attach
        { p_obj := 7, p_parent_object := 8,
          listeners_groups := [{ event_type := 1,
                                 listeners := [{ p_user_data := 20,
                                                 pf_callback := 10 }] },
                               { event_type := 1, listeners := [] }] }
        1 12 22).em.listeners_groups[j]? =
        ({ p_obj := 7, p_parent_object := 8,
           listeners_groups := [{ event_type := 1,
                                  listeners := [{ p_user_data := 20,
                                                  pf_callback := 10 }] },
                                { event_type := 1, listeners := [] }] } :
          vlc_event_manager_t).listeners_groups[j]?) ∧
    (vlc_event_send (fun _ _ _ m => m) 2
      { p_obj := 7, p_parent_object := 8,
        listeners_groups := [{ event_type := 1,
                               listeners := [{ p_user_data := 20,
                                               pf_callback := 10 }] },
                             { event_type := 1, listeners := [] }] }
      { type := 1, p_obj := 0, payload := 4 }).invocations =
      (groupListenersAt
        { p_obj := 7, p_parent_object := 8,
          listeners_groups := [{ event_type := 1,
                                 listeners := [{ p_user_data := 20,
                                                 pf_callback := 10 }] },
                               { event_type := 1, listeners := [] }] } 0).map
        (fun l => { pf_callback := l.pf_callback,
                    p_user_data := l.p_user_data,
                    ev := { type := 1, p_obj := 7, payload := 4 } }) :=
  C6_duplicate_groups_first_wins (fun _ _ _ m => m) 2
    { p_obj := 7, p_parent_object := 8,
      listeners_groups := [{ event_type := 1,
                             listeners := [{ p_user_data := 20,
                                             pf_callback := 10 }] },
                           { event_type := 1, listeners := [] }] }
    1 12 22 0 4 0 (fun _ _ _ _ => rfl) (by decide) (by decide) (by decide)

/-- C9: the groups array is append-only: register appends the fresh group
at the end; attach and detach preserve the keys of the groups array in
order (they never add, remove or reorder groups — at most one listener
array changes); and send with passive callbacks returns the manager
unchanged for any fuel. -/
theorem C9_groups_append_only (interp : Interp) (fuel : Nat)
    (p_em : vlc_event_manager_t) (event_type pf_callback p_user_data : Nat)
    (p_event : vlc_event_t) (hp : Passive interp) :
    (vlc_event_manager_register_event_type p_em
        event_type).1.listeners_groups =
      p_em.listeners_groups ++
        [{ event_type := event_type, listeners := [] }] ∧
    (__vlc_event_attach p_em event_type pf_callback
        p_user_data).em.listeners_groups.map
        vlc_event_listeners_group_t.event_type =
      p_em.listeners_groups.map vlc_event_listeners_group_t.event_type ∧
    (vlc_event_detach p_em event_type pf_callback
        p_user_data).em.listeners_groups.map
        vlc_event_listeners_group_t.event_type =
      p_em.listeners_groups.map vlc_event_listeners_group_t.event_type ∧
    (vlc_event_send interp fuel p_em p_event).em = p_em := by
  refine ⟨rfl, ?_, ?_, ?_⟩
  · unfold __vlc_event_attach
    simp only []
    cases hscan : attachScan
        { p_user_data := p_user_data, pf_callback := pf_callback }
        event_type p_em.listeners_groups with
    | none => rfl
    | some gs2 =>
      dsimp only []
      exact attachScan_map_key _ _ _ _ hscan
  · unfold vlc_event_detach
    cases hd : detachGroups event_type pf_callback p_user_data
        p_em.listeners_groups with
    | none => rfl
    | some gs2 =>
      dsimp only []
      exact detachGroups_map_key _ _ _ _ _ hd
  · unfold vlc_event_send
    simp only []
    cases findGroupIdx p_event.type p_em.listeners_groups with
    | none => rfl
    | some gi =>
      dsimp only []
      exact sendLoop_passive_fst interp hp gi _ fuel 0 p_em

/-- C9 witness: the append-only facts evaluated on a concrete manager. -/
theorem C9_groups_append_only_witness :
    (vlc_event_manager_register_event_type
      { p_obj := 7, p_parent_object := 8,
        listeners_groups := [{ event_type := 1,
                               listeners := [{ p_user_data := 20,
                                               pf_callback := 10 }] }] }
      2).1.listeners_groups =
      ({ p_obj := 7, p_parent_object := 8,
         listeners_groups := [{ event_type := 1,
                                listeners := [{ p_user_data := 20,
                                                pf_callback := 10 }] }] } :
        vlc_event_manager_t).listeners_groups ++
        [{ event_type := 2, listeners := [] }] ∧
    (__vlc_event_attach
      { p_obj := 7, p_parent_object := 8,
        listeners_groups := [{ event_type := 1,
                               listeners := [{ p_user_data := 20,
                                               pf_callback := 10 }] }] }
      2 10 20).em.listeners_groups.map
        vlc_event_listeners_group_t.event_type =
      ({ p_obj := 7, p_parent_object := 8,
         listeners_groups := [{ event_type := 1,
                                listeners := [{ p_user_data := 20,
                                                pf_callback := 10 }] }] } :
        vlc_event_manager_t).listeners_groups.map
        vlc_event_listeners_group_t.event_type ∧
    (vlc_event_detach
      { p_obj := 7, p_parent_object := 8,
        listeners_groups := [{ event_type := 1,
                               listeners := [{ p_user_data := 20,
                                               pf_callback := 10 }] }] }
      1 10 20).em.listeners_groups.map
        vlc_event_listeners_group_t.event_type =
      ({ p_obj := 7, p_parent_object := 8,
         listeners_groups := [{ event_type := 1,
                                listeners := [{ p_user_data := 20,
                                                pf_callback := 10 }] }] } :
        vlc_event_manager_t).listeners_groups.map
        vlc_event_listeners_group_t.event_type ∧
    (vlc_event_send (fun _ _ _ m => m) 2
      { p_obj := 7, p_parent_object := 8,
        listeners_groups := [{ event_type := 1,
                               listeners := [{ p_user_data := 20,
                                               pf_callback := 10 }] }] }
      { type := 1, p_obj := 0, payload := 4 }).em =
      { p_obj := 7, p_parent_object := 8,
        listeners_groups := [{ event_type := 1,
                               listeners := [{ p_user_data := 20,
                                               pf_callback := 10 }] }] } :=
  C9_groups_append_only (fun _ _ _ m => m) 2
    { p_obj := 7, p_parent_object := 8,
      listeners_groups := [{ event_type := 1,
                             listeners := [{ p_user_data := 20,
                                             pf_callback := 10 }] }] }
    2 10 20 { type := 1, p_obj := 0, payload := 4 } (fun _ _ _ _ => rfl)

/-- C2 counterexample: on a manager whose first group for key 1 holds no
matching listener but whose second (duplicate) group for key 1 does,
vlc_event_detach returns VLC_SUCCESS and removes the listener from the
second group. The claim predicts NotFound (VLC_EGENERIC) whenever no
listener matches within the first group matching the event type, so the
claim is false at this input: the source scans every group with the key,
not only the first. -/
theorem C2_counterexample :
    (vlc_event_detach
      { p_obj := 0, p_parent_object := 0,
        listeners_groups := [{ event_type := 1, listeners := [] },
                             { event_type := 1,
                               listeners := [{ p_user_data := 20,
                                               pf_callback := 10 }] }] }
      1 10 20).ret = VLC_SUCCESS ∧
    (vlc_event_detach
      { p_obj := 0, p_parent_object := 0,
        listeners_groups := [{ event_type := 1, listeners := [] },
                             { event_type := 1,
                               listeners := [{ p_user_data := 20,
                                               pf_callback := 10 }] }] }
      1 10 20).em.listeners_groups =
      [{ event_type := 1, listeners := [] },
       { event_type := 1, listeners := [] }] ∧
    ¬ (vlc_event_detach
      { p_obj := 0, p_parent_object := 0,
        listeners_groups := [{ event_type := 1, listeners := [] },
                             { event_type := 1,
                               listeners := [{ p_user_data := 20,
                                               pf_callback := 10 }] }] }
      1 10 20).ret = VLC_EGENERIC := by decide

/-- C2 (amended): vlc_event_detach fails with VLC_EGENERIC, one msg_Warn
and an unchanged state exactly when no group whose key equals event_type
holds a listener matching (pf_callback, p_user_data); on success it emits
no diagnostic and removes exactly the first matching listener entry of
the first key-matching group that holds one (all key-matching groups
before it hold no matching listener, all entries before index j in the
chosen group fail to match), leaving everything else unchanged; the
return code is always one of VLC_SUCCESS and VLC_EGENERIC. -/
theorem C2_detach_removes_first_match_anywhere (p_em : vlc_event_manager_t)
    (event_type pf_callback p_user_data : Nat) :
    ((vlc_event_detach p_em event_type pf_callback p_user_data).ret =
        VLC_EGENERIC ∧
      (vlc_event_detach p_em event_type pf_callback p_user_data).em = p_em ∧
      (vlc_event_detach p_em event_type pf_callback
          p_user_data).warnings_reported = 1 ↔
      ∀ g ∈ p_em.listeners_groups, g.event_type = event_type →
        ∀ l ∈ g.listeners, ¬ listenerMatches l pf_callback p_user_data) ∧
    ((vlc_event_detach p_em event_type pf_callback p_user_data).ret =
        VLC_SUCCESS →
      (vlc_event_detach p_em event_type pf_callback
          p_user_data).warnings_reported = 0 ∧
      ∃ gi g j l,
        p_em.listeners_groups[gi]? = some g ∧
        g.event_type = event_type ∧
        (∀ k, k < gi → ∀ gk, p_em.listeners_groups[k]? = some gk →
          gk.event_type = event_type →
          ∀ l2 ∈ gk.listeners,
            ¬ listenerMatches l2 pf_callback p_user_data) ∧
        g.listeners[j]? = some l ∧
        listenerMatches l pf_callback p_user_data ∧
        (∀ i2, i2 < j → ∀ l2, g.listeners[i2]? = some l2 →
          ¬ listenerMatches l2 pf_callback p_user_data) ∧
        (vlc_event_detach p_em event_type pf_callback p_user_data).em =
          { p_em with
              listeners_groups := p_em.listeners_groups.set gi
                { g with listeners := g.listeners.eraseIdx j } }) ∧
    ((vlc_event_detach p_em event_type pf_callback p_user_data).ret =
        VLC_SUCCESS ∨
      (vlc_event_detach p_em event_type pf_callback p_user_data).ret =
        VLC_EGENERIC) := by
  unfold vlc_event_detach
  cases hd : detachGroups event_type pf_callback p_user_data
      p_em.listeners_groups with
  | none =>
    dsimp only []
    refine ⟨?_, ?_, Or.inr rfl⟩
    · constructor
      · intro _
        exact (detachGroups_none_iff event_type pf_callback p_user_data
          p_em.listeners_groups).mp hd
      · intro _
        exact ⟨rfl, rfl, rfl⟩
    · intro hsucc
      exact absurd hsucc (by decide)
  | some gs2 =>
    obtain ⟨gi, g, ls2, hget, hkey, hbefore, hdl, rfl⟩ :=
      detachGroups_some_spec event_type pf_callback p_user_data
        p_em.listeners_groups gs2 hd
    obtain ⟨j, l, hgetj, hm, hbeforej, rfl⟩ :=
      detachListeners_some_spec pf_callback p_user_data g.listeners ls2 hdl
    dsimp only []
    refine ⟨?_, ?_, Or.inl rfl⟩
    · constructor
      · intro hfail
        exact absurd hfail.1 (by decide)
      · intro hall
        have hmem : l ∈ g.listeners := by
          obtain ⟨hlt2, rfl⟩ := List.getElem?_eq_some_iff.mp hgetj
          exact List.getElem_mem hlt2
        have hgmem : g ∈ p_em.listeners_groups := by
          obtain ⟨hlt2, rfl⟩ := List.getElem?_eq_some_iff.mp hget
          exact List.getElem_mem hlt2
        exact absurd hm (hall g hgmem hkey l hmem)
    · intro _
      exact ⟨rfl, gi, g, j, l, hget, hkey, hbefore, hgetj, hm, hbeforej, rfl⟩

/-- C2 witness: the success case of the amended characterization applied
to a concrete manager with one matching listener. -/
theorem C2_detach_removes_first_match_anywhere_witness :
    (vlc_event_detach
      { p_obj := 0, p_parent_object := 0,
        listeners_groups := [{ event_type := 1,
                               listeners := [{ p_user_data := 20,
                                               pf_callback := 10 }] }] }
      1 10 20).warnings_reported = 0 ∧
    ∃ (gi : Nat) (g : vlc_event_listeners_group_t) (j : Nat)
      (l : vlc_event_listener_t),
      ({ p_obj := 0, p_parent_object := 0,
         listeners_groups := [{ event_type := 1,
                                listeners := [{ p_user_data := 20,
                                                pf_callback := 10 }] }] } :
        vlc_event_manager_t).listeners_groups[gi]? = some g ∧
      g.event_type = 1 ∧
      (∀ (k : Nat), k < gi → ∀ (gk : vlc_event_listeners_group_t),
        ({ p_obj := 0, p_parent_object := 0,
           listeners_groups := [{ event_type := 1,
                                  listeners := [{ p_user_data := 20,
                                                  pf_callback := 10 }] }] } :
          vlc_event_manager_t).listeners_groups[k]? = some gk →
        gk.event_type = 1 →
        ∀ l2 ∈ gk.listeners, ¬ listenerMatches l2 10 20) ∧
      g.listeners[j]? = some l ∧
      listenerMatches l 10 20 ∧
      (∀ i2, i2 < j → ∀ l2, g.listeners[i2]? = some l2 →
        ¬ listenerMatches l2 10 20) ∧
      (vlc_event_detach
        { p_obj := 0, p_parent_object := 0,
          listeners_groups := [{ event_type := 1,
                                 listeners := [{ p_user_data := 20,
                                                 pf_callback := 10 }] }] }
        1 10 20).em =
        { ({ p_obj := 0, p_parent_object := 0,
             listeners_groups := [{ event_type := 1,
                                    listeners := [{ p_user_data := 20,
                                                    pf_callback := 10 }] }] } :
            vlc_event_manager_t) with
            listeners_groups :=
              ({ p_obj := 0, p_parent_object := 0,
                 listeners_groups := [{ event_type := 1,
                                        listeners := [{ p_user_data := 20,
                                                        pf_callback := 10 }] }] } :
                vlc_event_manager_t).listeners_groups.set gi
                { g with listeners := g.listeners.eraseIdx j } } :=
  (C2_detach_removes_first_match_anywhere
    { p_obj := 0, p_parent_object := 0,
      listeners_groups := [{ event_type := 1,
                             listeners := [{ p_user_data := 20,
                                             pf_callback := 10 }] }] }
    1 10 20).2.1 (by decide)

/-- The concrete manager for the C1 scenario: owner object 7, category 1
registered, listeners A = (callback 10, data 20) and B = (callback 11,
data 21) attached in that order. -/
def c1em : vlc_event_manager_t :=
  { p_obj := 7, p_parent_object := 8,
    listeners_groups := [{ event_type := 1,
                           listeners := [{ p_user_data := 20,
                                           pf_callback := 10 },
                                         { p_user_data := 21,
                                           pf_callback := 11 }] }] }

/-- The callback behaviour for the C1 scenario: callback 10 invoked with
user data 20 (listener A) reentrantly detaches (category 1, callback 10,
data 20) from the manager, that is, detaches itself during its own
invocation; every other invocation leaves the manager unchanged. -/
def c1interp : Interp := fun cb _e ud m =>
  if cb = 10 ∧ ud = 20 then (vlc_event_detach m 1 10 20).em else m

/-- C1 counterexample: the claim predicts that listener B = (11, 21) is
still invoked exactly once by the send during which A detached itself
(snapshot-before-dispatch); on the code B is invoked zero times, because
the dispatch loop re-reads the live listener array by index, so the claim
is false at this input. -/
theorem C1_counterexample :
    ¬ countInvoc (vlc_event_send c1interp 5 c1em
        { type := 1, p_obj := 0, payload := 99 }).invocations 11 21 = 1 := by
  decide

/-- C1 (amended): with listeners A then B attached in that order to the
first group of registered category T, and the callback of A reentrantly
calling detach(T, A, dataA) on the same manager during its own
invocation, the send invokes only A: the invocation log of the whole send
is the single entry for A, the dispatch loop completes, and whenever the
pair (A, dataA) differs from (B, dataB) the pair (B, dataB) is invoked
zero times. The loop reads the live array through the running index, so
removing A shifts B into the slot the index has already passed: the code
implements live-index iteration, not snapshot-before-dispatch. -/
theorem C1_reentrant_detach_skips_next_listener (interp : Interp)
    (fuel : Nat) (p_em : vlc_event_manager_t)
    (T A dataA B dataB p_obj0 payload gi : Nat)
    (hfind : findGroupIdx T p_em.listeners_groups = some gi)
    (hls : groupListenersAt p_em gi =
      [{ p_user_data := dataA, pf_callback := A },
       { p_user_data := dataB, pf_callback := B }])
    (hA : ∀ e m, interp A e dataA m = (vlc_event_detach m T A dataA).em)
    (hfuel : 1 ≤ fuel) :
    (vlc_event_send interp fuel p_em
        { type := T, p_obj := p_obj0, payload := payload }).invocations =
      [{ pf_callback := A, p_user_data := dataA,
         ev := { type := T, p_obj := p_em.p_obj, payload := payload } }] ∧
    (vlc_event_send interp fuel p_em
        { type := T, p_obj := p_obj0, payload := payload }).ok = true ∧
    (¬ (A = B ∧ dataA = dataB) →
      countInvoc (vlc_event_send interp fuel p_em
        { type := T, p_obj := p_obj0, payload := payload }).invocations
        B dataB = 0) := by
  obtain ⟨g, hget, hkey, _⟩ :=
    findGroupIdx_some_spec T p_em.listeners_groups gi hfind
  have hlt : gi < p_em.listeners_groups.length :=
    (List.getElem?_eq_some_iff.mp hget).1
  have hgl : g.listeners =
      [{ p_user_data := dataA, pf_callback := A },
       { p_user_data := dataB, pf_callback := B }] := by
    rw [← groupListenersAt_eq p_em gi g hget]
    exact hls
  have hdl : detachListeners A dataA g.listeners =
      some [{ p_user_data := dataB, pf_callback := B }] := by
    rw [hgl, detachListeners, if_pos ⟨rfl, rfl⟩]
  have hdg := detachGroups_first T A dataA p_em.listeners_groups gi g
    [{ p_user_data := dataB, pf_callback := B }] hfind hget hdl
  have hdetach : vlc_event_detach p_em T A dataA =
      { em := { p_em with
                  listeners_groups := p_em.listeners_groups.set gi
                    { g with
                        listeners := [{ p_user_data := dataB,
                                        pf_callback := B }] } },
        ret := VLC_SUCCESS, warnings_reported := 0 } := by
    unfold vlc_event_detach
    rw [hdg]
  cases fuel with
  | zero => exact absurd hfuel (by decide)
  | succ f =>
    have h0 : 0 < (groupListenersAt p_em gi).length := by
      rw [hls]
      simp
    have hl0 : (groupListenersAt p_em gi)[0]? =
        some { p_user_data := dataA, pf_callback := A } := by
      rw [hls]
      rfl
    have hlistener : (groupListenersAt p_em gi).get ⟨0, h0⟩ =
        { p_user_data := dataA, pf_callback := A } := by
      rw [List.get_eq_getElem, ← Option.some_inj,
        ← List.getElem?_eq_getElem h0, hl0]
    have hga2 := groupListenersAt_set p_em gi
      { g with
          listeners := [{ p_user_data := dataB, pf_callback := B }] } hlt
    have hnot : ¬ 1 < (groupListenersAt
        { p_em with
            listeners_groups := p_em.listeners_groups.set gi
              { g with
                  listeners := [{ p_user_data := dataB,
                                  pf_callback := B }] } } gi).length := by
      rw [hga2]
      simp
    have hloop : sendLoop interp gi
        { type := T, p_obj := p_em.p_obj, payload := payload }
        (Nat.succ f) 0 p_em =
        ({ p_em with
             listeners_groups := p_em.listeners_groups.set gi
               { g with
                   listeners := [{ p_user_data := dataB,
                                   pf_callback := B }] } },
         [{ pf_callback := A, p_user_data := dataA,
            ev := { type := T, p_obj := p_em.p_obj, payload := payload } }],
         true) := by
      rw [sendLoop]
      dsimp only []
      rw [dif_pos h0, hlistener]
      dsimp only []
      rw [hA, hdetach]
      dsimp only []
      rw [sendLoop_done interp gi
        { type := T, p_obj := p_em.p_obj, payload := payload } f (0 + 1) _
        hnot]
    have hsend : vlc_event_send interp (Nat.succ f) p_em
        { type := T, p_obj := p_obj0, payload := payload } =
        { em := { p_em with
                    listeners_groups := p_em.listeners_groups.set gi
                      { g with
                          listeners := [{ p_user_data := dataB,
                                          pf_callback := B }] } },
          p_event := { type := T, p_obj := p_em.p_obj, payload := payload },
          invocations := [{ pf_callback := A, p_user_data := dataA,
                            ev := { type := T, p_obj := p_em.p_obj,
                                    payload := payload } }],
          msgs := 0, ok := true } := by
      unfold vlc_event_send
      simp only []
      rw [hfind]
      dsimp only []
      rw [hloop]
    refine ⟨by rw [hsend], by rw [hsend], ?_⟩
    intro hne
    rw [hsend]
    dsimp only []
    simp [countInvoc, hne]

/-- C1 witness: the amended statement evaluated on the concrete scenario,
with a fuel of 5: only A is invoked and B is invoked zero times. -/
theorem C1_reentrant_detach_skips_next_listener_witness :
    (vlc_event_send c1interp 5 c1em
        { type := 1, p_obj := 0, payload := 99 }).invocations =
      [{ pf_callback := 10, p_user_data := 20,
         ev := { type := 1, p_obj := c1em.p_obj, payload := 99 } }] ∧
    (vlc_event_send c1interp 5 c1em
        { type := 1, p_obj := 0, payload := 99 }).ok = true ∧
    (¬ (10 = 11 ∧ 20 = 21) →
      countInvoc (vlc_event_send c1interp 5 c1em
        { type := 1, p_obj := 0, payload := 99 }).invocations 11 21 = 0) :=
  C1_reentrant_detach_skips_next_listener c1interp 5 c1em
    1 10 20 11 21 0 99 0 (by decide) (by decide)
    (fun e m => by simp [c1interp]) (by decide)
